import Mathlib

/-!
Shallow embedding of `source/gPathTrace/mainPathTrace.cpp` (gvdb-voxels,
gPathTrace sample): the `Sample` window class (progressive path-tracing
control loop), together with call-recording models of the two engine
globals `gvdb : VolumeGVDB` and `optx : OptixScene`.

Machine floats of the source are embedded as exact rationals; `int`
event deltas as `Int`; the counters `frame`, `sample`, `max_samples`
(always non-negative in every reachable state) as `Nat`.
-/

/-- Vector3DF of the source, embedded over the rationals. -/
structure Vec3 where
  x : ℚ
  y : ℚ
  z : ℚ
deriving DecidableEq, Repr

/-- Componentwise sum, modelling `operator+=` on Vector3DF. -/
def Vec3.add (a b : Vec3) : Vec3 :=
  ⟨a.x + b.x, a.y + b.y, a.z + b.z⟩

/-- The mouse button of NVPWindow held during a drag;
`Sample::mouse_down = -1` is embedded as `none`. -/
inductive MouseButton where
  | left
  | middle
  | right
deriving DecidableEq, Repr

/-- NVPWindow button actions relevant to `Sample::mouse`. -/
inductive ButtonAction where
  | press
  | release
deriving DecidableEq, Repr

/-- The `int shading` argument of `Sample::RebuildOptixGraph`, split into
the three values matched by its `switch` (SHADE_TRILINEAR, SHADE_VOLUME,
SHADE_EMPTYSKIP) and the class `other` of every remaining int value,
which the switch does not match. -/
inductive ShadeMode where
  | trilinear
  | volume
  | emptyskip
  | other (code : Nat)
deriving DecidableEq, Repr

/-- Modelled from the spec: Camera (and Light, which shares the orbit
representation): orbit angles, look-at target, orbit distance, dolly,
field of view.  `Camera3D` is repository code that is not under `src/`. -/
structure Camera3D where
  angs : Vec3
  to_pos : Vec3
  orbit_dist : ℚ
  dolly : ℚ
  fov : ℚ
deriving DecidableEq, Repr

/-- Modelled from the spec: `Camera3D::setOrbit` stores the orbit
parameters (angles, look-at target, distance, dolly) that fully
determine the view. -/
def Camera3D.setOrbit (a tp : Vec3) (dist dly : ℚ) (c : Camera3D) : Camera3D :=
  { c with angs := a, to_pos := tp, orbit_dist := dist, dolly := dly }

/-- Modelled from the spec: `Camera3D::moveRelative` pans the look-at
target by the given camera-relative offsets. -/
def Camera3D.moveRelative (cx cy cz : ℚ) (c : Camera3D) : Camera3D :=
  { c with to_pos := c.to_pos.add ⟨cx, cy, cz⟩ }

def Camera3D.getAng (c : Camera3D) : Vec3 := c.angs

def Camera3D.getToPos (c : Camera3D) : Vec3 := c.to_pos

def Camera3D.getOrbitDist (c : Camera3D) : ℚ := c.orbit_dist

def Camera3D.getDolly (c : Camera3D) : ℚ := c.dolly

/-- The argument quadruple of a `gvdb.SetTransform(rotate, scale,
rotation-center, translation)` call (spec: "set affine transform
(rotation, scale, rotation-center, translation)"). -/
structure XForm where
  rotate : Vec3
  scale : Vec3
  center : Vec3
  translate : Vec3
deriving DecidableEq, Repr

/-- Modelled from the spec: call-recording state of the volume engine
global `gvdb` (whose implementation is repository code not under
`src/`): the last transform set, the committed transfer function, the
render-buffer size, a render counter, and the load-time data the sample
reads back (atlas id, world bounding box). -/
structure GvdbState where
  xform : Option XForm
  transfer_committed : Bool
  render_buf : Option (Nat × Nat)
  render_count : Nat
  atlas_glid : Nat
  world_min : Vec3
  world_max : Vec3
deriving DecidableEq, Repr

/-- Modelled from the spec: `gvdb.SetTransform` records the affine
transform arguments. -/
def GvdbState.SetTransform (rot scl ctr tra : Vec3) (g : GvdbState) : GvdbState :=
  { g with xform := some { rotate := rot, scale := scl, center := ctr, translate := tra } }

/-- Modelled from the spec: `gvdb.Render` (rasterization backend) runs
one render; recorded as a counter. -/
def GvdbState.Render (g : GvdbState) : GvdbState :=
  { g with render_count := g.render_count + 1 }

/-- The MaterialParams fields written by `Sample::RebuildOptixGraph`. -/
structure MaterialParams where
  light_width : ℚ
  shadow_width : ℚ
  diff_color : Vec3
  spec_color : Vec3
  spec_power : ℚ
  env_color : Vec3
  refl_width : ℚ
  refl_color : Vec3
  refr_width : ℚ
  refr_color : Vec3
  refr_ior : ℚ
  refr_amount : ℚ
  refr_offset : ℚ
deriving DecidableEq, Repr

/-- A material registered with `optx.AddMaterial(program, hit, shadow)`;
its parameter table is `none` until `SetMaterialParams` stores one. -/
structure OptixMaterial where
  prog : String
  hit : String
  shadow : String
  params : Option MaterialParams
deriving DecidableEq, Repr

/-- A volume node added with `optx.AddVolume`.  The material id and the
intersection-mode char come from the locals `matid`/`isect` of
`RebuildOptixGraph`, which the `switch` leaves uninitialized for an
unmatched shading value; that indeterminate case is embedded as `none`.
The transform argument is always the identity matrix (lines 120-121 of
the source) and is not recorded. -/
structure OptixVolume where
  atlas_glid : Nat
  vmin : Vec3
  vmax : Vec3
  matid : Option Nat
  isect : Option Char
deriving DecidableEq, Repr

/-- Modelled from the spec: call-recording state of the ray-tracing
engine global `optx` (whose implementation is repository code not under
`src/`): registered materials, volume nodes, count of polygon nodes,
whether the transfer function was pushed, whether the graph was
validated and the volume payload synchronized, the last (frame, sample)
pair set, a render counter, and the output size. -/
structure OptixState where
  materials : List OptixMaterial
  volumes : List OptixVolume
  poly_count : Nat
  transfer_set : Bool
  validated : Bool
  volume_synced : Bool
  last_sample : Option (Nat × Nat)
  render_count : Nat
  out_size : Nat × Nat
deriving DecidableEq, Repr

/-- Modelled from the spec: `optx.InitializeOptix(w, h)` starts from an
empty graph with the given output dimensions. -/
def OptixState.InitializeOptix (w h : Nat) : OptixState :=
  { materials := [], volumes := [], poly_count := 0, transfer_set := false,
    validated := false, volume_synced := false, last_sample := none,
    render_count := 0, out_size := (w, h) }

/-- Modelled from the spec: `optx.ClearGraph` fully resets the
builder-owned graph state (idempotent). -/
def OptixState.ClearGraph (o : OptixState) : OptixState :=
  { o with materials := [], volumes := [], poly_count := 0,
           transfer_set := false, validated := false, volume_synced := false }

/-- Modelled from the spec: `optx.AddMaterial` registers a material and
returns its id (position in the registration order). -/
def OptixState.AddMaterial (m : OptixMaterial) (o : OptixState) : Nat × OptixState :=
  (o.materials.length, { o with materials := o.materials ++ [m] })

/-- Modelled from the spec: `optx.SetMaterialParams(id, p)` stores the
parameter table on the material with that id. -/
def OptixState.SetMaterialParams (id : Nat) (p : MaterialParams) (o : OptixState) : OptixState :=
  match o.materials.get? id with
  | some m => { o with materials := o.materials.set id { m with params := some p } }
  | none => o

/-- Modelled from the spec: `optx.AddVolume` appends a volume node. -/
def OptixState.AddVolume (glid : Nat) (vmin vmax : Vec3)
    (matid : Option Nat) (isect : Option Char) (o : OptixState) : OptixState :=
  { o with volumes := o.volumes ++
      [{ atlas_glid := glid, vmin := vmin, vmax := vmax, matid := matid, isect := isect }] }

/-- Modelled from the spec: `optx.AddPolygons` appends a geometry node. -/
def OptixState.AddPolygons (o : OptixState) : OptixState :=
  { o with poly_count := o.poly_count + 1 }

/-- Modelled from the spec: `optx.SetTransferFunc` pushes the transfer
function into the graph. -/
def OptixState.SetTransferFunc (o : OptixState) : OptixState :=
  { o with transfer_set := true }

/-- Modelled from the spec: `optx.ValidateGraph` asks the engine to
validate the graph; the engine-side outcome is outside this embedding,
so only the fact that validation was requested is recorded. -/
def OptixState.ValidateGraph (o : OptixState) : OptixState :=
  { o with validated := true }

/-- Modelled from the spec: `optx.UpdateVolume` synchronizes the voxel
atlas into the engine's GPU-visible binding. -/
def OptixState.UpdateVolume (o : OptixState) : OptixState :=
  { o with volume_synced := true }

/-- Modelled from the spec: `optx.SetSample(frame, sample)` informs the
backend of the current pair. -/
def OptixState.SetSample (f s : Nat) (o : OptixState) : OptixState :=
  { o with last_sample := some (f, s) }

/-- Modelled from the spec: `optx.Render` dispatches one render call. -/
def OptixState.Render (o : OptixState) : OptixState :=
  { o with render_count := o.render_count + 1 }

/-- Modelled from the spec: `optx.ResizeOutput(w, h)`. -/
def OptixState.ResizeOutput (w h : Nat) (o : OptixState) : OptixState :=
  { o with out_size := (w, h) }

/-- The whole program state: the fields of the `Sample` class (the
screen texture embedded by its dimensions), the two engine globals, and
a flag recording that `postRedisplay()` was called. -/
structure World where
  mouse_down : Option MouseButton
  frame : Nat
  sample : Nat
  max_samples : Nat
  m_shading : ShadeMode
  m_render_optix : Bool
  m_translate : Vec3
  delta : Vec3
  mat_surf1 : Option Nat
  mat_deep : Option Nat
  gl_screen_tex : Nat × Nat
  cam : Camera3D
  light : Camera3D
  gvdb : GvdbState
  optix : OptixState
  redraw : Bool
deriving DecidableEq, Repr

/-- The accumulation state (frame, sample) of a world. -/
def counters (w : World) : Nat × Nat := (w.frame, w.sample)

/-- The parameter table written into `mat_surf1` (and shared with
`mat_deep`) by `Sample::RebuildOptixGraph`, lines 90-102 of the source;
decimal float literals of the source embedded as the exact fractions written there. -/
def surfParams : MaterialParams :=
  { light_width := 1/2, shadow_width := 1/2,
    diff_color := ⟨1/2, 27/50, 1/2⟩, spec_color := ⟨7/10, 7/10, 7/10⟩,
    spec_power := 80, env_color := ⟨0, 0, 0⟩,
    refl_width := 3/10, refl_color := ⟨4/5, 4/5, 4/5⟩,
    refr_width := 0, refr_color := ⟨0, 0, 0⟩,
    refr_ior := 6/5, refr_amount := 1, refr_offset := 15 }

/-- Program names of `optx.AddMaterial("optix_trace_surface",
"trace_surface", "trace_shadow")`. -/
def surfMaterialDecl : OptixMaterial :=
  { prog := "optix_trace_surface", hit := "trace_surface",
    shadow := "trace_shadow", params := none }

/-- Program names of `optx.AddMaterial("optix_trace_deep",
"trace_deep", "trace_shadow")`. -/
def deepMaterialDecl : OptixMaterial :=
  { prog := "optix_trace_deep", hit := "trace_deep",
    shadow := "trace_shadow", params := none }

/-- `Sample::RebuildOptixGraph(int shading)`, lines 81-143 of the
source: clear the graph, register the surface and deep materials (both
with `surfParams`), select `(matid, isect)` by the `switch` on
`shading` — an unmatched value leaves both locals uninitialized,
embedded as `(none, none)` — then add the volume node, the polygon
model, the transfer function, validate, and sync the volume payload. -/
def Sample.RebuildOptixGraph (shading : ShadeMode) (w : World) : World :=
  let o0 := w.optix.ClearGraph
  let p1 := o0.AddMaterial surfMaterialDecl
  let surf1 := p1.1
  let o1 := p1.2.SetMaterialParams surf1 surfParams
  let p2 := o1.AddMaterial deepMaterialDecl
  let deep := p2.1
  let o2 := p2.2.SetMaterialParams deep surfParams
  let sel : Option Nat × Option Char :=
    match shading with
    | ShadeMode.trilinear => (some surf1, some 'S')
    | ShadeMode.volume => (some deep, some 'D')
    | ShadeMode.emptyskip => (some surf1, some 'E')
    | ShadeMode.other _ => (none, none)
  let o3 := o2.AddVolume w.gvdb.atlas_glid w.gvdb.world_min w.gvdb.world_max sel.1 sel.2
  let o4 := o3.AddPolygons
  let o5 := o4.SetTransferFunc
  let o6 := o5.ValidateGraph
  let o7 := o6.UpdateVolume
  { w with optix := o7, mat_surf1 := some surf1, mat_deep := some deep }

/-- `Sample::init()`, lines 145-238 of the source, for a `w × h`
window (the program runs at 1024 × 768).  Engine-side load results
(atlas id, world bounding box) are external data supplied by the volume
engine; they are fixed at neutral values here, and no claim depends on
them.  Scene raycasting parameters not referenced by any claim
(steps, extinction, cutoffs, background color) are not recorded. -/
def Sample.init (w h : Nat) : World :=
  let translate0 : Vec3 := ⟨-200, 0, -400⟩
  let gvdb0 : GvdbState :=
    { xform := none, transfer_committed := false, render_buf := none,
      render_count := 0, atlas_glid := 0,
      world_min := ⟨0, 0, 0⟩, world_max := ⟨1, 1, 1⟩ }
  let gvdb1 := gvdb0.SetTransform ⟨0, 90, 0⟩ ⟨1/4, 1/4, 1/4⟩ ⟨0, 0, 0⟩ translate0
  let gvdb2 := { gvdb1 with transfer_committed := true, render_buf := some (w, h) }
  let cam0 : Camera3D :=
    ({ angs := ⟨0, 0, 0⟩, to_pos := ⟨0, 0, 0⟩, orbit_dist := 0, dolly := 0,
       fov := 30 } : Camera3D).setOrbit ⟨-20, 30, 0⟩ ⟨0, 0, 0⟩ 500 1
  let lgt0 : Camera3D :=
    ({ angs := ⟨0, 0, 0⟩, to_pos := ⟨0, 0, 0⟩, orbit_dist := 0, dolly := 0,
       fov := 0 } : Camera3D).setOrbit ⟨45, 45, 0⟩ ⟨0, 0, 0⟩ 200 1
  let st : World :=
    { mouse_down := none, frame := 0, sample := 0, max_samples := 1024,
      m_shading := ShadeMode.volume, m_render_optix := true,
      m_translate := translate0, delta := ⟨0, 0, 0⟩,
      mat_surf1 := none, mat_deep := none,
      gl_screen_tex := (w, h), cam := cam0, light := lgt0,
      gvdb := gvdb2, optix := OptixState.InitializeOptix w h,
      redraw := false }
  if st.m_render_optix then Sample.RebuildOptixGraph st.m_shading st else st

/-- One observable step of `Sample::display()`, in program order. -/
inductive DispEvent where
  | setSample (frame sample : Nat)
  | clearScreen
  | advance (frame sample : Nat)
  | renderOptix
  | renderGvdb
  | readOutput
  | drawQuad
  | redisplay
deriving DecidableEq, Repr

/-- `Sample::display()`, lines 289-322 of the source: inform the
backend of the current (pre-advancement) pair with `optx.SetSample`,
clear the screen, advance the counters (`if (++sample < max_samples)
postRedisplay(); else { ++frame; sample = 0; }`), dispatch one render
on the active backend, read back the output, draw the screen quad, and
request the next tick.  Besides the new state it returns the ordered
trace of observable steps, used for the ordering properties. -/
def Sample.display (w : World) : World × List DispEvent :=
  let o1 := if w.m_render_optix then w.optix.SetSample w.frame w.sample else w.optix
  let tr1 := if w.m_render_optix then [DispEvent.setSample w.frame w.sample] else []
  let tr2 := tr1 ++ [DispEvent.clearScreen]
  let advanced : Nat × Nat :=
    if w.sample + 1 < w.max_samples then (w.frame, w.sample + 1) else (w.frame + 1, 0)
  let tr3 :=
    if w.sample + 1 < w.max_samples then
      tr2 ++ [DispEvent.advance w.frame (w.sample + 1), DispEvent.redisplay]
    else
      tr2 ++ [DispEvent.advance (w.frame + 1) 0]
  let o2 := if w.m_render_optix then o1.Render else o1
  let g2 := if w.m_render_optix then w.gvdb else w.gvdb.Render
  let tr4 :=
    if w.m_render_optix then tr3 ++ [DispEvent.renderOptix, DispEvent.readOutput]
    else tr3 ++ [DispEvent.renderGvdb, DispEvent.readOutput]
  ({ w with frame := advanced.1, sample := advanced.2, optix := o2, gvdb := g2,
            redraw := true },
   tr4 ++ [DispEvent.drawQuad, DispEvent.redisplay])

/-- The state after one display tick. -/
def displayState (w : World) : World := (Sample.display w).1

/-- The ordered trace of one display tick. -/
def displayTrace (w : World) : List DispEvent := (Sample.display w).2

/-- `Sample::reshape(int w, int h)`, lines 240-253 of the source:
resize the screen texture, the gvdb render buffer and (when the OptiX
backend is active) the OptiX output, then request a redraw. -/
def Sample.reshape (wd ht : Nat) (st : World) : World :=
  { st with gl_screen_tex := (wd, ht),
            gvdb := { st.gvdb with render_buf := some (wd, ht) },
            optix := if st.m_render_optix then st.optix.ResizeOutput wd ht else st.optix,
            redraw := true }

/-- `Sample::motion(int x, int y, int dx, int dy)`, lines 324-373 of
the source; the shift-modifier flag read from `getMods()` is passed as
a parameter.  The switch on `mouse_down` does nothing when no button is
held. -/
def Sample.motion (x y dx dy : ℤ) (shift : Bool) (st : World) : World :=
  match st.mouse_down with
  | some MouseButton.left =>
    if shift then
      let tra : Vec3 := ⟨st.m_translate.x - (dx : ℚ), st.m_translate.y,
                         st.m_translate.z - (dy : ℚ)⟩
      { st with m_translate := tra,
                gvdb := st.gvdb.SetTransform ⟨0, 0, 0⟩ ⟨1/4, 1/4, 1/4⟩ ⟨0, 0, 0⟩ tra,
                sample := 0, redraw := true }
    else
      let dlt : Vec3 := ⟨(dx : ℚ) * (1/5), -(dy : ℚ) * (1/5), 0⟩
      let angs := st.cam.getAng.add dlt
      { st with cam := st.cam.setOrbit angs st.cam.getToPos st.cam.getOrbitDist
                         st.cam.getDolly,
                delta := dlt, sample := 0, redraw := true }
  | some MouseButton.middle =>
      { st with cam := st.cam.moveRelative ((dx : ℚ) * st.cam.getOrbitDist / 1000)
                         (-(dy : ℚ) * st.cam.getOrbitDist / 1000) 0,
                sample := 0, redraw := true }
  | some MouseButton.right =>
    if shift then
      let tra : Vec3 := ⟨st.m_translate.x, st.m_translate.y + (dy : ℚ), st.m_translate.z⟩
      { st with m_translate := tra,
                gvdb := st.gvdb.SetTransform ⟨0, 0, 0⟩ ⟨1/4, 1/4, 1/4⟩ ⟨0, 0, 0⟩ tra,
                sample := 0, redraw := true }
    else
      { st with cam := st.cam.setOrbit st.cam.getAng st.cam.getToPos
                         (st.cam.getOrbitDist - (dy : ℚ)) st.cam.getDolly,
                sample := 0, redraw := true }
  | none => st

/-- `Sample::mouse(button, state, mods, x, y)`, lines 375-379 of the
source: `mouse_down = (state == BUTTON_PRESS) ? button : -1`. -/
def Sample.mouse (button : MouseButton) (state : ButtonAction) (st : World) : World :=
  { st with mouse_down := if state = ButtonAction.press then some button else none }

/-- The counter transition of one display tick, extracted from
`Sample::display`. -/
def tick (max_samples : Nat) (fs : Nat × Nat) : Nat × Nat :=
  if fs.2 + 1 < max_samples then (fs.1, fs.2 + 1) else (fs.1 + 1, 0)

theorem display_counters (w : World) :
    counters (displayState w) = tick w.max_samples (counters w) := rfl

theorem display_max_samples (w : World) :
    (displayState w).max_samples = w.max_samples := rfl

theorem display_iter_counters (n : Nat) (w : World) :
    counters (displayState^[n] w) = (tick w.max_samples)^[n] (counters w) := by
  induction n generalizing w with
  | zero => rfl
  | succ n ih =>
      rw [Function.iterate_succ_apply, Function.iterate_succ_apply, ih (displayState w),
        display_max_samples, display_counters]

/-- Recognizes the backend-inform step `optx.SetSample`. -/
def isSetSampleEv : DispEvent → Bool
  | DispEvent.setSample _ _ => true
  | _ => false

/-- Recognizes the counter-advancement step. -/
def isAdvanceEv : DispEvent → Bool
  | DispEvent.advance _ _ => true
  | _ => false

/-- Recognizes the render dispatch on either backend. -/
def isRenderEv : DispEvent → Bool
  | DispEvent.renderOptix => true
  | DispEvent.renderGvdb => true
  | _ => false

/-- The session's world as built by `Sample::init` at the program's
fixed 1024 × 768 window. -/
def w0 : World := Sample.init 1024 768

/-- The world `w0` one sample before the convergence budget. -/
def wLast : World := { w0 with sample := 1023 }

/-- Claim C1, counterexample: at the concrete starting pair (frame 0,
sample 1023) with max_samples 1024, the precondition `sample <
max_samples` of the claim's first clause holds, yet one display tick
does not yield (frame, sample + 1): it yields (1, 0). -/
theorem C1_counterexample :
    wLast.sample < wLast.max_samples ∧
    counters (displayState wLast) ≠ (wLast.frame, wLast.sample + 1) := by
  decide

/-- Claim C1 (amended): one display tick starting from (frame, sample)
yields (frame, sample + 1) when `sample + 1 < max_samples`, and
(frame + 1, 0) when `sample == max_samples - 1` (with `max_samples ≥ 1`);
the code tests the incremented sample against the budget. -/
theorem C1_tick_amended (w : World) :
    (w.sample + 1 < w.max_samples →
      counters (displayState w) = (w.frame, w.sample + 1)) ∧
    (w.sample = w.max_samples - 1 → 1 ≤ w.max_samples →
      counters (displayState w) = (w.frame + 1, 0)) := by
  constructor
  · intro h
    rw [display_counters]
    simp [tick, counters, h]
  · intro h1 h2
    rw [display_counters]
    have hlt : ¬ (w.sample + 1 < w.max_samples) := by omega
    simp [tick, counters, hlt]

/-- Claim C1, witness: both clauses of the amended tick property at
concrete worlds: from (0, 0) one tick gives (0, 1), and from (0, 1023)
with budget 1024 one tick gives (1, 0). -/
theorem C1_tick_amended_witness :
    counters (displayState w0) = (0, 1) ∧ counters (displayState wLast) = (1, 0) :=
  ⟨(C1_tick_amended w0).1 (by decide), (C1_tick_amended wLast).2 (by decide) (by decide)⟩

/-- Claim C2: for a shading value outside the three handled by the
switch, `RebuildOptixGraph` does NOT stop with an invalid-configuration
error: it still registers both materials, adds the polygon node, runs
validation, and adds the volume node whose (material id, intersection
tag) pair comes from the locals the switch left uninitialized (embedded
as `none`).  This exhibits the code-side divergence from the claim. -/
theorem C2_invalid_mode_still_mutates :
    (Sample.RebuildOptixGraph (ShadeMode.other 99) w0).optix.materials.length = 2 ∧
    (Sample.RebuildOptixGraph (ShadeMode.other 99) w0).optix.volumes.map OptixVolume.matid
      = [none] ∧
    (Sample.RebuildOptixGraph (ShadeMode.other 99) w0).optix.volumes.map OptixVolume.isect
      = [none] ∧
    (Sample.RebuildOptixGraph (ShadeMode.other 99) w0).optix.poly_count = 1 ∧
    (Sample.RebuildOptixGraph (ShadeMode.other 99) w0).optix.validated = true := by
  decide

/-- Claim C3, counterexample: invoked at a world whose sample counter is
5, `RebuildOptixGraph` leaves it at 5, so the accumulation state after
the rebuild is not (frame, 0). -/
theorem C3_counterexample :
    ({ w0 with sample := 5 } : World).sample = 5 ∧
    (Sample.RebuildOptixGraph ShadeMode.volume { w0 with sample := 5 }).sample ≠ 0 := by
  decide

/-- Claim C3 (amended): `RebuildOptixGraph` leaves the accumulation
state (frame, sample) unchanged — it contains no reset; in the program
it is invoked only from `init`, which has just set the state to (0, 0),
so the state after that sole rebuild is (0, 0). -/
theorem C3_rebuild_preserves_counters (sh : ShadeMode) (w : World) :
    counters (Sample.RebuildOptixGraph sh w) = counters w ∧
    counters (Sample.init 1024 768) = (0, 0) :=
  ⟨rfl, by decide⟩

/-- Claim C4, counterexample: initialization passes rotation (0, 90, 0)
to the transform-setting call, but a left-button drag with the modifier
held passes rotation (0, 0, 0) — the session's initial rotation is not
passed unchanged. -/
theorem C4_counterexample :
    w0.gvdb.xform.map XForm.rotate = some ⟨0, 90, 0⟩ ∧
    (Sample.motion 0 0 1 0 true { w0 with mouse_down := some MouseButton.left }).gvdb.xform.map
      XForm.rotate = some ⟨0, 0, 0⟩ ∧
    (Sample.motion 0 0 1 0 true { w0 with mouse_down := some MouseButton.left }).gvdb.xform.map
      XForm.rotate ≠ w0.gvdb.xform.map XForm.rotate := by
  decide

/-- Claim C4 (amended): every drag-time transform-setting call (left or
right button with the modifier) passes the same scale (1/4, 1/4, 1/4)
and rotation-center (0, 0, 0) as initialization and the updated
translation, but a fixed rotation (0, 0, 0) instead of the session's
initial rotation (0, 90, 0). -/
theorem C4_amended_drag_transform (w : World) (x y dx dy : ℤ) :
    (Sample.motion x y dx dy true { w with mouse_down := some MouseButton.left }).gvdb.xform =
      some { rotate := ⟨0, 0, 0⟩, scale := ⟨1/4, 1/4, 1/4⟩, center := ⟨0, 0, 0⟩,
             translate := (Sample.motion x y dx dy true
               { w with mouse_down := some MouseButton.left }).m_translate } ∧
    (Sample.motion x y dx dy true { w with mouse_down := some MouseButton.right }).gvdb.xform =
      some { rotate := ⟨0, 0, 0⟩, scale := ⟨1/4, 1/4, 1/4⟩, center := ⟨0, 0, 0⟩,
             translate := (Sample.motion x y dx dy true
               { w with mouse_down := some MouseButton.right }).m_translate } ∧
    w0.gvdb.xform = some { rotate := ⟨0, 90, 0⟩, scale := ⟨1/4, 1/4, 1/4⟩,
                           center := ⟨0, 0, 0⟩, translate := ⟨-200, 0, -400⟩ } :=
  ⟨rfl, rfl, rfl⟩

/-- Claim C5: every pointer-motion event processed while a button is
held (any of the three buttons, modifier on or off) leaves the sample
counter at 0 and has requested a redraw. -/
theorem C5_drag_resets_sample (w : World) (b : MouseButton) (x y dx dy : ℤ) (shift : Bool) :
    (Sample.motion x y dx dy shift { w with mouse_down := some b, redraw := false }).sample
      = 0 ∧
    (Sample.motion x y dx dy shift { w with mouse_down := some b, redraw := false }).redraw
      = true := by
  cases b <;> cases shift <;> simp [Sample.motion]

/-- Claim C6, counterexample: in the display tick from the initial
world, the counter advancement does not precede the backend-inform
step — `optx.SetSample` is the first step of the trace and receives
the pre-advancement pair (0, 0), while the tick's post-advancement
sample is 1. -/
theorem C6_counterexample :
    ¬ ((displayTrace w0).findIdx isAdvanceEv < (displayTrace w0).findIdx isSetSampleEv) ∧
    (displayTrace w0).head? = some (DispEvent.setSample 0 0) ∧
    (displayState w0).sample = 1 := by
  decide

/-- Claim C6 (amended): in every display tick with the OptiX backend
active, the backend is informed first — `optx.SetSample` is step 0 of
the trace and carries the pre-advancement (frame, sample) pair — then
the sample advancement (step 2) happens strictly before the render
dispatch that consumes it. -/
theorem C6_amended_order (w : World) :
    (displayTrace { w with m_render_optix := true }).findIdx isSetSampleEv = 0 ∧
    (displayTrace { w with m_render_optix := true }).findIdx isAdvanceEv = 2 ∧
    (displayTrace { w with m_render_optix := true }).findIdx isAdvanceEv <
      (displayTrace { w with m_render_optix := true }).findIdx isRenderEv ∧
    (displayTrace { w with m_render_optix := true }).head? =
      some (DispEvent.setSample w.frame w.sample) := by
  by_cases h : w.sample + 1 < w.max_samples <;>
    simp [displayTrace, Sample.display, h, isSetSampleEv, isAdvanceEv, isRenderEv,
      List.findIdx_cons]

/-- Claim C7: a left-button drag with the modifier off and deltas
(dx = 10, dy = -5) changes the camera orbit angles by exactly
(+2, +1, 0) under the fixed sensitivity 1/5 and resets the sample
counter to 0. -/
theorem C7_left_drag_orbit (w : World) :
    (Sample.motion 0 0 10 (-5) false { w with mouse_down := some MouseButton.left }).cam.angs.x
      = w.cam.angs.x + 2 ∧
    (Sample.motion 0 0 10 (-5) false { w with mouse_down := some MouseButton.left }).cam.angs.y
      = w.cam.angs.y + 1 ∧
    (Sample.motion 0 0 10 (-5) false { w with mouse_down := some MouseButton.left }).cam.angs.z
      = w.cam.angs.z ∧
    (Sample.motion 0 0 10 (-5) false { w with mouse_down := some MouseButton.left }).sample
      = 0 := by
  refine ⟨?_, ?_, ?_, rfl⟩ <;>
    norm_num [Sample.motion, Camera3D.setOrbit, Camera3D.getAng, Vec3.add]

theorem tick_iter_lt (m f : Nat) : ∀ n s, s + n < m → (tick m)^[n] (f, s) = (f, s + n) := by
  intro n
  induction n with
  | zero => intro s h; simp
  | succ n ih =>
      intro s h
      rw [Function.iterate_succ_apply]
      have h1 : s + 1 < m := by omega
      have hstep : tick m (f, s) = (f, s + 1) := by simp [tick, h1]
      rw [hstep, ih (s + 1) (by omega)]
      congr 1
      omega

/-- Claim C8: from the initialized state (frame 0, sample 0,
max_samples 1024, shading mode volume), after exactly 1024 display
ticks with no interaction the counters are frame 1, sample 0. -/
theorem C8_convergence_scenario : counters (displayState^[1024] w0) = (1, 0) := by
  rw [display_iter_counters]
  have hmax : w0.max_samples = 1024 := by decide
  have hc : counters w0 = (0, 0) := by decide
  rw [hmax, hc]
  have h1023 : (tick 1024)^[1023] (0, 0) = (0, 1023) :=
    tick_iter_lt 1024 0 1023 0 (by omega)
  have hsucc := Function.iterate_succ_apply' (tick 1024) 1023 ((0, 0) : Nat × Nat)
  have hn : Nat.succ 1023 = 1024 := rfl
  rw [hn] at hsucc
  rw [hsucc, h1023]
  simp [tick]

/-- Claim C9: a pointer-motion event with no button held changes
nothing at all (the whole world is unchanged: camera, light, volume
transform, counters), a press sets the active button, and a release
clears it. -/
theorem C9_idle_motion_noop (w : World) (x y dx dy : ℤ) (shift : Bool) (b : MouseButton) :
    Sample.motion x y dx dy shift { w with mouse_down := none } =
      { w with mouse_down := none } ∧
    (Sample.mouse b ButtonAction.press w).mouse_down = some b ∧
    (Sample.mouse b ButtonAction.release w).mouse_down = none :=
  ⟨rfl, rfl, rfl⟩

/-- Claim C10: a window resize leaves the accumulation state (frame,
sample) unchanged; only the screen texture, the gvdb render buffer and
(with the OptiX backend active) the OptiX output are resized. -/
theorem C10_reshape_preserves_accum (wd ht : Nat) (st : World) :
    counters (Sample.reshape wd ht st) = counters st ∧
    (Sample.reshape wd ht st).gl_screen_tex = (wd, ht) ∧
    (Sample.reshape wd ht st).gvdb.render_buf = some (wd, ht) ∧
    (Sample.reshape wd ht { st with m_render_optix := true }).optix.out_size = (wd, ht) :=
  ⟨rfl, rfl, rfl, rfl⟩
